import Mathlib

/-!
Verification of the priority-scoring engine in `src/orchestrator/priority.py`.

Embedding conventions:
* Python `int` is `Int`; Python `float` scores are exact rationals `ℚ`
  (every score reachable here is a weighted sum of integers with weights
  that are multiples of 1/100, so exact arithmetic is the intended value).
* `datetime` values are rationals counting seconds; `timedelta.days` is the
  floor of the difference divided by 86400, matching Python's normalization
  of negative timedeltas toward minus infinity.
* `datetime.now()` becomes an explicit `now : ℚ` argument, making the
  functions deterministic in `now` exactly as the code is.
* Python dicts with fixed keys become structures; the ordered `factors`
  dict becomes the `Factors` structure with its five fields in order.
* Exceptions escaping `score_tasks` (from `datetime.fromisoformat`) become
  `Except String`.
-/

namespace Pilot

/-- The ordered `factors` dict built by `PriorityScorer.score_task`:
five factor values keyed `base_priority`, `age`, `complexity`,
`dependencies`, `labels`, in insertion order. -/
structure Factors where
  base_priority : Int
  age : Int
  complexity : Int
  dependencies : Int
  labels : Int
deriving DecidableEq, Repr

/-- The `ScoredTask` dataclass: a task with its priority score and the
factor breakdown.  Also models the per-task output dict of `score_tasks`,
which carries exactly the same five fields. -/
structure ScoredTask where
  task_id : String
  title : String
  raw_priority : Int
  score : ℚ
  factors : Factors
deriving DecidableEq, Repr

/-- `PriorityScorer.WEIGHTS` values, in the dict's key order
`base_priority, age, complexity, dependencies, labels`. -/
def WEIGHTS : List ℚ := [0.4, 0.2, 0.15, 0.15, 0.1]

/-- `PriorityScorer.URGENT_LABELS`: labels that boost the score. -/
def URGENT_LABELS : List String := ["urgent", "critical", "blocker", "hotfix"]

/-- Python `str.lower`, restricted to the ASCII range that matters for the
comparisons against `URGENT_LABELS` (which are all ASCII). -/
def lowerStr (s : String) : String := String.mk (s.data.map Char.toLower)

/-- Rounding of a rational to the nearest integer, ties to even; models the
behaviour of Python `round` on ties.  Every value this development rounds is
already an integer after scaling by 100, so the tie rule is never exercised,
but we keep the faithful tie-to-even convention. -/
def roundHalfEven (x : ℚ) : Int :=
  if x - ⌊x⌋ = 1 / 2 then (if ⌊x⌋ % 2 = 0 then ⌊x⌋ else ⌊x⌋ + 1) else round x

/-- Python `round(x, 2)` in exact rational arithmetic. -/
def round2 (x : ℚ) : ℚ := (roundHalfEven (x * 100) : ℚ) / 100

/-- `(datetime.now() - created_at).days`: the timedelta day count is the
floor of the span in days (Python normalizes negative spans downward). -/
def ageDays (now created_at : ℚ) : Int := ⌊(now - created_at) / 86400⌋

/-- `PriorityScorer.score_task`.  Arguments appear in the Python order;
the implicit `datetime.now()` is the explicit final argument `now`.
`created_at = none` models the `None` default, and `labels = []` models
both `None` and the empty list (both falsy under `if labels:`). -/
def score_task (task_id : String) (title : String) (priority : Int)
    (created_at : Option ℚ) (complexity : String) (labels : List String)
    (blocking_count : Int) (now : ℚ) : ScoredTask :=
  -- Base priority score (1-4 maps to 100-25): max(0, (5 - priority) * 25)
  let base_score : Int := max 0 ((5 - priority) * 25)
  -- Age factor: min(100, age_days * 5) when created_at is given, else 0
  let age_score : Int :=
    match created_at with
    | some c => min 100 (ageDays now c * 5)
    | none => 0
  -- Complexity factor: {'low': 80, 'medium': 50, 'high': 30}.get(complexity, 50)
  let complexity_score : Int :=
    if complexity = "low" then 80
    else if complexity = "medium" then 50
    else if complexity = "high" then 30
    else 50
  -- Dependencies: min(100, blocking_count * 20)
  let dependency_score : Int := min 100 (blocking_count * 20)
  -- Label boost: 100 iff labels is truthy and its lowercased set meets URGENT_LABELS
  let label_score : Int :=
    if labels.isEmpty then 0
    else if labels.any (fun l => URGENT_LABELS.contains (lowerStr l)) then 100
    else 0
  let factors : Factors :=
    { base_priority := base_score
      age := age_score
      complexity := complexity_score
      dependencies := dependency_score
      labels := label_score }
  -- total_score = sum(factors[k] * WEIGHTS[k] for k in WEIGHTS)
  let total_score : ℚ :=
    (base_score : ℚ) * 0.4 + (age_score : ℚ) * 0.2 + (complexity_score : ℚ) * 0.15
      + (dependency_score : ℚ) * 0.15 + (label_score : ℚ) * 0.1
  { task_id := task_id
    title := title
    raw_priority := priority
    score := round2 total_score
    factors := factors }

/-- Descending comparison used by the sorts:
`sorted(..., key=lambda t: t.score, reverse=True)` puts `a` before `b`
exactly when `b.score ≤ a.score`, keeping input order on ties. -/
def scoreGe (a b : ScoredTask) : Prop := b.score ≤ a.score

instance : DecidableRel scoreGe := fun a b => inferInstanceAs (Decidable (b.score ≤ a.score))

/-- Insert a task into a list already sorted by descending score, before the
first element whose score is at most the inserted one (so an element keeps
its place in front of later equal-scored elements: stability). -/
def orderedInsertDesc (a : ScoredTask) : List ScoredTask → List ScoredTask
  | [] => [a]
  | b :: l => if b.score ≤ a.score then a :: b :: l else b :: orderedInsertDesc a l

/-- The stable descending-by-score sort.  Python's `sorted` with
`key=lambda t: t.score, reverse=True` is a stable sort descending on score;
a stable sort's output is determined by the key and the input order, and
insertion sort with `orderedInsertDesc` realizes exactly that output. -/
def sortByScoreDesc : List ScoredTask → List ScoredTask
  | [] => []
  | a :: l => orderedInsertDesc a (sortByScoreDesc l)

/-- `PriorityScorer.rank_tasks`: rank tasks by score, highest first. -/
def rank_tasks (tasks : List ScoredTask) : List ScoredTask :=
  sortByScoreDesc tasks

/-- The raw per-task input dict accepted by the `score_tasks` entry point.
`none` in a field models an absent key (the corresponding `task.get`
default applies). -/
structure TaskData where
  id : Option String := none
  title : Option String := none
  priority : Option Int := none
  created_at : Option String := none
  complexity : Option String := none
  labels : Option (List String) := none
  blocking_count : Option Int := none
deriving DecidableEq, Repr

/-- Numeric value of a list of decimal digit characters. -/
def digitsVal (cs : List Char) : Nat :=
  cs.foldl (fun a c => a * 10 + (c.toNat - 48)) 0

/-- Read exactly two decimal digits, returning their value and the rest. -/
def take2 : List Char → Option (Nat × List Char)
  | a :: b :: rest =>
    if a.isDigit ∧ b.isDigit then
      some ((a.toNat - 48) * 10 + (b.toNat - 48), rest)
    else none
  | _ => none

/-- Read exactly four decimal digits, returning their value and the rest. -/
def take4 : List Char → Option (Nat × List Char)
  | a :: b :: c :: d :: rest =>
    if a.isDigit ∧ b.isDigit ∧ c.isDigit ∧ d.isDigit then
      some (digitsVal [a, b, c, d], rest)
    else none
  | _ => none

/-- Consume one expected character. -/
def expectChar (c : Char) : List Char → Option (List Char)
  | x :: rest => if x == c then some rest else none
  | [] => none

/-- Split the time part at the first sign character, separating the clock
time from a possible UTC offset, as CPython's ISO time parser does.  (When
CPython's split position differs — possible only if a second sign character
occurs — both parsers reject the string, since neither fragment grammar
contains a sign.) -/
def splitAtSign : List Char → List Char × Option (Char × List Char)
  | [] => ([], none)
  | c :: cs =>
    if c == '+' ∨ c == '-' then ([], some (c, cs))
    else
      match splitAtSign cs with
      | (pre, tz) => (c :: pre, tz)

/-- Gregorian leap-year rule. -/
def isLeap (y : Nat) : Bool := (y % 4 == 0 && y % 100 != 0) || (y % 400 == 0)

/-- Length of a month, as the `datetime` constructor validates days. -/
def daysInMonth (y m : Nat) : Nat :=
  if m = 2 then (if isLeap y then 29 else 28)
  else if m = 4 ∨ m = 6 ∨ m = 9 ∨ m = 11 then 30
  else 31

/-- Clock time `HH[:MM[:SS[.fff[fff]]]]` consuming its whole input, as
CPython's `_parse_hh_mm_ss_ff`: components are two strict digits,
fractions are exactly three digits (milliseconds) or six (microseconds).
Returns `(hour, minute, second, microsecond)`. -/
def parseClockComps (cs : List Char) : Option (Nat × Nat × Nat × Nat) :=
  match take2 cs with
  | none => none
  | some (hh, r1) =>
    match r1 with
    | [] => some (hh, 0, 0, 0)
    | ':' :: r2 =>
      match take2 r2 with
      | none => none
      | some (mm, r3) =>
        match r3 with
        | [] => some (hh, mm, 0, 0)
        | ':' :: r4 =>
          match take2 r4 with
          | none => none
          | some (ss, r5) =>
            match r5 with
            | [] => some (hh, mm, ss, 0)
            | '.' :: r6 =>
              if r6.length = 3 ∧ r6.all Char.isDigit then
                some (hh, mm, ss, digitsVal r6 * 1000)
              else if r6.length = 6 ∧ r6.all Char.isDigit then
                some (hh, mm, ss, digitsVal r6)
              else none
            | _ => none
        | _ => none
    | _ => none

/-- UTC offset body `HH:MM[:SS[.ffffff]]` consuming its whole input: the
three shapes (lengths 5, 8 and 15) CPython admits after the offset sign. -/
def parseOffsetComps (cs : List Char) : Option (Nat × Nat × Nat × Nat) :=
  match take2 cs with
  | none => none
  | some (hh, r1) =>
    match r1 with
    | ':' :: r2 =>
      match take2 r2 with
      | none => none
      | some (mm, r3) =>
        match r3 with
        | [] => some (hh, mm, 0, 0)
        | ':' :: r4 =>
          match take2 r4 with
          | none => none
          | some (ss, r5) =>
            match r5 with
            | [] => some (hh, mm, ss, 0)
            | '.' :: r6 =>
              if r6.length = 6 ∧ r6.all Char.isDigit then
                some (hh, mm, ss, digitsVal r6)
              else none
            | _ => none
        | _ => none
    | _ => none

/-- Model of the Python standard-library `datetime.fromisoformat` (the one
function the entry point calls that is outside this repository).  It
follows CPython 3.7-3.10:
`YYYY-MM-DD` (strict digits, dashes at positions 4 and 7), then optionally
one separator character (any character, as CPython ignores position 10)
and a clock time `HH[:MM[:SS[.fff[fff]]]]`, then optionally a signed UTC
offset `HH:MM[:SS[.ffffff]]`; the constructor's range checks apply: year
at least 1, month 1-12, day bounded by the month's length (leap years
included), hour at most 23, minute and second at most 59, and the offset
strictly below 24 hours.  Outside the model, by documented choice: the
whitespace/sign tolerance of `int()` inside fields, and the wider grammar
of Python 3.11 and later.  The returned rational encodes the instant
abstractly (a day ordinal in seconds plus the clock time minus the
offset); no theorem depends on the encoded value, only on which strings
parse.  Because this function is external to the repository, the
batch-level theorems quantify over an arbitrary parser and hold for any
`String → Option ℚ` — in particular for the true stdlib behaviour of
whichever Python version runs the code; this concrete model only
instantiates witnesses, at strings on which every version agrees. -/
def fromisoformat (s : String) : Option ℚ :=
  match take4 s.data with
  | none => none
  | some (y, r1) =>
    match expectChar '-' r1 with
    | none => none
    | some r2 =>
      match take2 r2 with
      | none => none
      | some (mo, r3) =>
        match expectChar '-' r3 with
        | none => none
        | some r4 =>
          match take2 r4 with
          | none => none
          | some (d, r5) =>
            if 1 ≤ y ∧ 1 ≤ mo ∧ mo ≤ 12 ∧ 1 ≤ d ∧ d ≤ daysInMonth y mo then
              let base : ℚ := ((y * 372 + (mo - 1) * 31 + (d - 1)) * 86400 : Nat)
              match r5 with
              | [] => some base
              | _ :: tr =>
                match splitAtSign tr with
                | (timecs, tzo) =>
                  match parseClockComps timecs with
                  | none => none
                  | some (hh, mm, ss, micro) =>
                    if hh ≤ 23 ∧ mm ≤ 59 ∧ ss ≤ 59 then
                      let clock : ℚ :=
                        ((hh * 3600 + mm * 60 + ss : Nat) : ℚ) + (micro : ℚ) / 1000000
                      match tzo with
                      | none => some (base + clock)
                      | some (sgn, tzcs) =>
                        match parseOffsetComps tzcs with
                        | none => none
                        | some (oh, om, os, omicro) =>
                          if oh * 3600000000 + om * 60000000 + os * 1000000
                              + omicro < 86400000000 then
                            let off : ℚ :=
                              ((oh * 3600 + om * 60 + os : Nat) : ℚ) + (omicro : ℚ) / 1000000
                            if sgn == '-' then some (base + clock + off)
                            else some (base + clock - off)
                          else none
                    else none
            else none

/-- One iteration of the `score_tasks` loop body, with the external
timestamp parser abstracted as the argument `parse`: resolve `created_at`
(the guard `if task.get('created_at'):` skips both an absent key and a
falsy empty string), parse it — a parse failure is the uncaught
`ValueError` — then call `score_task` with the dict's `get` defaults. -/
def scoreOneWith (parse : String → Option ℚ) (task : TaskData) (now : ℚ) :
    Except String ScoredTask :=
  let rawCreated : Option String :=
    match task.created_at with
    | some s => if s.isEmpty then none else some s
    | none => none
  match rawCreated with
  | some s =>
    match parse s with
    | some c =>
      .ok (score_task ((task.id).getD "") ((task.title).getD "")
        ((task.priority).getD 4) (some c) ((task.complexity).getD "medium")
        ((task.labels).getD []) ((task.blocking_count).getD 0) now)
    | none => .error ("Invalid isoformat string: " ++ s)
  | none =>
    .ok (score_task ((task.id).getD "") ((task.title).getD "")
      ((task.priority).getD 4) none ((task.complexity).getD "medium")
      ((task.labels).getD []) ((task.blocking_count).getD 0) now)

/-- The `score_tasks` loop body with the concrete parser model. -/
def scoreOne (task : TaskData) (now : ℚ) : Except String ScoredTask :=
  scoreOneWith fromisoformat task now

/-- The accumulation loop of `score_tasks`: score each task in order,
stopping at the first uncaught parse error. -/
def scoreAllWith (parse : String → Option ℚ) :
    List TaskData → ℚ → Except String (List ScoredTask)
  | [], _ => .ok []
  | t :: rest, now =>
    match scoreOneWith parse t now with
    | .error e => .error e
    | .ok r =>
      match scoreAllWith parse rest now with
      | .error e => .error e
      | .ok rs => .ok (r :: rs)

/-- The accumulation loop with the concrete parser model. -/
def scoreAll (tasks : List TaskData) (now : ℚ) :
    Except String (List ScoredTask) :=
  scoreAllWith fromisoformat tasks now

/-- `score_tasks`, the entry point for the Go orchestrator, with the
external parser abstracted: score every task dict, then return them
sorted by score, highest first.  The output dicts carry the same five
fields as `ScoredTask`, so the same structure models them. -/
def score_tasksWith (parse : String → Option ℚ) (tasks_data : List TaskData)
    (now : ℚ) : Except String (List ScoredTask) :=
  (scoreAllWith parse tasks_data now).map sortByScoreDesc

/-- `score_tasks` with the concrete parser model. -/
def score_tasks (tasks_data : List TaskData) (now : ℚ) :
    Except String (List ScoredTask) :=
  score_tasksWith fromisoformat tasks_data now

/-- Membership of an integer in the factor range [0, 100]. -/
def between0and100 (n : Int) : Prop := 0 ≤ n ∧ n ≤ 100

/-- The base-priority formula exactly as the spec words it:
`clamp(0,100, (5 − rawPriority) × 25)`, clamped at both ends.  Stated
from the spec for comparison with the code's `max(0, …)`. -/
def spec_base_priority_clamp (rawPriority : Int) : Int :=
  min 100 (max 0 ((5 - rawPriority) * 25))

/-! ## Projection lemmas for `score_task` -/

theorem score_task_base_priority (id title : String) (p : Int) (c : Option ℚ)
    (comp : String) (ls : List String) (b : Int) (now : ℚ) :
    (score_task id title p c comp ls b now).factors.base_priority
      = max 0 ((5 - p) * 25) := rfl

theorem score_task_age_none (id title : String) (p : Int)
    (comp : String) (ls : List String) (b : Int) (now : ℚ) :
    (score_task id title p none comp ls b now).factors.age = 0 := rfl

theorem score_task_age_some (id title : String) (p : Int) (c : ℚ)
    (comp : String) (ls : List String) (b : Int) (now : ℚ) :
    (score_task id title p (some c) comp ls b now).factors.age
      = min 100 (ageDays now c * 5) := rfl

theorem score_task_complexity (id title : String) (p : Int) (c : Option ℚ)
    (comp : String) (ls : List String) (b : Int) (now : ℚ) :
    (score_task id title p c comp ls b now).factors.complexity
      = (if comp = "low" then 80
          else if comp = "medium" then 50
          else if comp = "high" then 30 else 50) := by
  cases c <;> rfl

theorem score_task_dependencies (id title : String) (p : Int) (c : Option ℚ)
    (comp : String) (ls : List String) (b : Int) (now : ℚ) :
    (score_task id title p c comp ls b now).factors.dependencies
      = min 100 (b * 20) := by
  cases c <;> rfl

theorem score_task_labels (id title : String) (p : Int) (c : Option ℚ)
    (comp : String) (ls : List String) (b : Int) (now : ℚ) :
    (score_task id title p c comp ls b now).factors.labels
      = (if ls.isEmpty then 0
          else if ls.any (fun l => URGENT_LABELS.contains (lowerStr l)) then 100
          else 0) := by
  cases c <;> rfl

theorem score_task_field_ids (id title : String) (p : Int) (c : Option ℚ)
    (comp : String) (ls : List String) (b : Int) (now : ℚ) :
    (score_task id title p c comp ls b now).task_id = id
    ∧ (score_task id title p c comp ls b now).title = title
    ∧ (score_task id title p c comp ls b now).raw_priority = p := by
  refine ⟨?_, ?_, ?_⟩ <;> cases c <;> rfl

theorem score_task_score (id title : String) (p : Int) (c : Option ℚ)
    (comp : String) (ls : List String) (b : Int) (now : ℚ) :
    (score_task id title p c comp ls b now).score
      = round2
        (((score_task id title p c comp ls b now).factors.base_priority : ℚ) * 0.4
          + ((score_task id title p c comp ls b now).factors.age : ℚ) * 0.2
          + ((score_task id title p c comp ls b now).factors.complexity : ℚ) * 0.15
          + ((score_task id title p c comp ls b now).factors.dependencies : ℚ) * 0.15
          + ((score_task id title p c comp ls b now).factors.labels : ℚ) * 0.1) := by
  cases c <;> rfl

/-! ## Rounding helper lemmas -/

theorem roundHalfEven_intCast (n : ℤ) : roundHalfEven ((n : ℚ)) = n := by
  unfold roundHalfEven
  rw [Int.floor_intCast]
  rw [if_neg (by norm_num), round_intCast]

theorem round2_of_mul_eq (x : ℚ) (n : ℤ) (h : x * 100 = (n : ℚ)) :
    round2 x = (n : ℚ) / 100 := by
  unfold round2
  rw [h, roundHalfEven_intCast]

/-! ## C1 -/

/-- C1: refuted as stated.  At `rawPriority = 0` the code computes
`max(0, (5 − 0) × 25) = 125`, while the spec formula
`clamp(0,100, (5 − rawPriority) × 25)` gives 100: the code does not clamp
the base-priority factor at the upper end. -/
theorem C1_counterexample :
    (score_task "t" "x" 0 none "medium" [] 0 0).factors.base_priority = 125
    ∧ spec_base_priority_clamp 0 = 100
    ∧ (score_task "t" "x" 0 none "medium" [] 0 0).factors.base_priority
        ≠ spec_base_priority_clamp 0 := by
  refine ⟨rfl, rfl, ?_⟩
  decide

/-- C1 (amended): for every integer rawPriority the base_priority factor
computed by `score_task` equals `max(0, (5 − rawPriority) × 25)` — clamped
at the lower end only, never raising — and it agrees with the two-sided
clamp `clamp(0,100,·)` exactly on `rawPriority ≥ 1`. -/
theorem C1_base_priority_formula (id title : String) (p : Int) (c : Option ℚ)
    (comp : String) (ls : List String) (b : Int) (now : ℚ) :
    (score_task id title p c comp ls b now).factors.base_priority
      = max 0 ((5 - p) * 25)
    ∧ (1 ≤ p →
      (score_task id title p c comp ls b now).factors.base_priority
        = spec_base_priority_clamp p) := by
  refine ⟨score_task_base_priority .., fun hp => ?_⟩
  rw [score_task_base_priority, spec_base_priority_clamp]
  omega

theorem C1_base_priority_formula_witness :
    (score_task "t" "x" 2 none "medium" [] 0 0).factors.base_priority
      = max 0 ((5 - 2) * 25)
    ∧ (score_task "t" "x" 2 none "medium" [] 0 0).factors.base_priority
      = spec_base_priority_clamp 2 := by
  have h := C1_base_priority_formula "t" "x" 2 none "medium" [] 0 0
  exact ⟨h.1, h.2 (by norm_num)⟩

/-! ## C3 -/

/-- C3: refuted as stated.  At `rawPriority = −1` the base_priority factor
is 150, outside [0, 100]. -/
theorem C3_counterexample :
    (score_task "t" "x" (-1) none "medium" [] 0 0).factors.base_priority = 150
    ∧ ¬ between0and100
        (score_task "t" "x" (-1) none "medium" [] 0 0).factors.base_priority := by
  refine ⟨rfl, ?_⟩
  rw [score_task_base_priority, between0and100]
  decide

/-- C3 (amended): for descriptors with `rawPriority ≥ 1`,
`blockingCount ≥ 0` and `createdAt` absent or not later than `now`, each of
the five factor values stored in the factors map lies in [0, 100].  (For
out-of-range inputs the base_priority, age and dependencies factors can
leave the interval: base_priority exceeds 100 for `rawPriority ≤ 0`, and
age and dependencies go negative for future timestamps and negative
blocking counts.) -/
theorem C3_factors_bounded (id title : String) (p : Int) (c : Option ℚ)
    (comp : String) (ls : List String) (b : Int) (now : ℚ)
    (hp : 1 ≤ p) (hb : 0 ≤ b) (hc : ∀ x, c = some x → x ≤ now) :
    between0and100 (score_task id title p c comp ls b now).factors.base_priority
    ∧ between0and100 (score_task id title p c comp ls b now).factors.age
    ∧ between0and100 (score_task id title p c comp ls b now).factors.complexity
    ∧ between0and100 (score_task id title p c comp ls b now).factors.dependencies
    ∧ between0and100 (score_task id title p c comp ls b now).factors.labels := by
  unfold between0and100
  refine ⟨?_, ?_, ?_, ?_, ?_⟩
  · rw [score_task_base_priority]; omega
  · cases c with
    | none => rw [score_task_age_none]; omega
    | some x =>
      rw [score_task_age_some]
      have hx : x ≤ now := hc x rfl
      have hd : 0 ≤ ageDays now x := by
        apply Int.floor_nonneg.mpr
        apply div_nonneg (by linarith) (by norm_num)
      omega
  · rw [score_task_complexity]; split_ifs <;> omega
  · rw [score_task_dependencies]; omega
  · rw [score_task_labels]; split_ifs <;> omega

theorem C3_factors_bounded_witness :
    between0and100 (score_task "t" "x" 2 (some 0) "low" ["a"] 1 86400).factors.base_priority
    ∧ between0and100 (score_task "t" "x" 2 (some 0) "low" ["a"] 1 86400).factors.age
    ∧ between0and100 (score_task "t" "x" 2 (some 0) "low" ["a"] 1 86400).factors.complexity
    ∧ between0and100 (score_task "t" "x" 2 (some 0) "low" ["a"] 1 86400).factors.dependencies
    ∧ between0and100 (score_task "t" "x" 2 (some 0) "low" ["a"] 1 86400).factors.labels :=
  C3_factors_bounded "t" "x" 2 (some 0) "low" ["a"] 1 86400 (by norm_num)
    (by norm_num) (by intro x hx; cases hx; norm_num)

/-! ## C4 -/

/-- C4: refuted as stated.  At `blockingCount = −1` the code computes
`min(100, −1 × 20) = −20`, not 0: negative blocking counts are not clamped
before the multiply. -/
theorem C4_counterexample :
    (score_task "t" "x" 2 none "medium" [] (-1) 0).factors.dependencies = -20
    ∧ (score_task "t" "x" 2 none "medium" [] (-1) 0).factors.dependencies ≠ 0 := by
  refine ⟨rfl, ?_⟩
  rw [score_task_dependencies]
  decide

/-- C4 (amended): a negative blockingCount is not clamped: the dependencies
factor equals `blockingCount × 20`, which is strictly negative, and no
error is raised (`score_task` is total and still returns a value). -/
theorem C4_negative_blocking_unclamped (id title : String) (p : Int)
    (c : Option ℚ) (comp : String) (ls : List String) (b : Int) (now : ℚ)
    (hb : b < 0) :
    (score_task id title p c comp ls b now).factors.dependencies = b * 20
    ∧ (score_task id title p c comp ls b now).factors.dependencies < 0 := by
  rw [score_task_dependencies]
  omega

theorem C4_negative_blocking_unclamped_witness :
    (score_task "t" "x" 2 none "medium" [] (-2) 0).factors.dependencies = -2 * 20
    ∧ (score_task "t" "x" 2 none "medium" [] (-2) 0).factors.dependencies < 0 :=
  C4_negative_blocking_unclamped "t" "x" 2 none "medium" [] (-2) 0 (by norm_num)

/-! ## C6 -/

/-- C6: confirmed.  For the descriptor with priority 1, complexity `low`,
labels `[critical]`, blockingCount 3 and createdAt exactly 10 days before
`now`, `score_task` yields factors base_priority 100, age 50,
complexity 80, dependencies 60, labels 100, and score exactly 81.00 —
for every scoring time `now`. -/
theorem C6_concrete_scenario (id title : String) (now : ℚ) :
    (score_task id title 1 (some (now - 10 * 86400)) "low" ["critical"] 3 now).factors.base_priority = 100
    ∧ (score_task id title 1 (some (now - 10 * 86400)) "low" ["critical"] 3 now).factors.age = 50
    ∧ (score_task id title 1 (some (now - 10 * 86400)) "low" ["critical"] 3 now).factors.complexity = 80
    ∧ (score_task id title 1 (some (now - 10 * 86400)) "low" ["critical"] 3 now).factors.dependencies = 60
    ∧ (score_task id title 1 (some (now - 10 * 86400)) "low" ["critical"] 3 now).factors.labels = 100
    ∧ (score_task id title 1 (some (now - 10 * 86400)) "low" ["critical"] 3 now).score = 81 := by
  have hAge : ageDays now (now - 10 * 86400) = 10 := by
    unfold ageDays
    rw [show now - (now - 10 * 86400) = 864000 from by ring]
    norm_num
  have h1 : (score_task id title 1 (some (now - 10 * 86400)) "low" ["critical"] 3 now).factors.base_priority = 100 := by
    rw [score_task_base_priority]; decide
  have h2 : (score_task id title 1 (some (now - 10 * 86400)) "low" ["critical"] 3 now).factors.age = 50 := by
    rw [score_task_age_some, hAge]; decide
  have h3 : (score_task id title 1 (some (now - 10 * 86400)) "low" ["critical"] 3 now).factors.complexity = 80 := by
    rw [score_task_complexity]; decide
  have h4 : (score_task id title 1 (some (now - 10 * 86400)) "low" ["critical"] 3 now).factors.dependencies = 60 := by
    rw [score_task_dependencies]; decide
  have h5 : (score_task id title 1 (some (now - 10 * 86400)) "low" ["critical"] 3 now).factors.labels = 100 := by
    rw [score_task_labels]; decide
  refine ⟨h1, h2, h3, h4, h5, ?_⟩
  rw [score_task_score, h1, h2, h3, h4, h5]
  rw [show ((100 : ℤ) : ℚ) * 0.4 + ((50 : ℤ) : ℚ) * 0.2 + ((80 : ℤ) : ℚ) * 0.15
      + ((60 : ℤ) : ℚ) * 0.15 + ((100 : ℤ) : ℚ) * 0.1 = 81 from by push_cast; norm_num]
  rw [round2_of_mul_eq 81 8100 (by norm_num)]
  norm_num

/-! ## C7 -/

/-- C7: confirmed.  The age factor is exactly 100 whenever the task is at
least 20 days old at scoring time, and the dependencies factor is exactly
100 whenever blockingCount is at least 5. -/
theorem C7_saturation (id title : String) (p : Int) (comp : String)
    (ls : List String) (b : Int) (now c : ℚ) (c2 : Option ℚ) :
    (20 * 86400 ≤ now - c →
      (score_task id title p (some c) comp ls b now).factors.age = 100)
    ∧ (5 ≤ b →
      (score_task id title p c2 comp ls b now).factors.dependencies = 100) := by
  constructor
  · intro h
    rw [score_task_age_some]
    have h20 : (20 : ℤ) ≤ ageDays now c := by
      apply Int.le_floor.mpr
      push_cast
      rw [le_div_iff₀ (by norm_num : (0:ℚ) < 86400)]
      linarith
    omega
  · intro hb
    rw [score_task_dependencies]
    omega

theorem C7_saturation_witness :
    (score_task "t" "x" 2 (some 0) "medium" [] 5 1728000).factors.age = 100
    ∧ (score_task "t" "x" 2 (some 0) "medium" [] 5 1728000).factors.dependencies = 100 :=
  ⟨(C7_saturation "t" "x" 2 "medium" [] 5 1728000 0 (some 0)).1 (by norm_num),
   (C7_saturation "t" "x" 2 "medium" [] 5 1728000 0 (some 0)).2 (by norm_num)⟩

/-! ## C8 -/

/-- C8: confirmed.  For two descriptors identical except for rawPriority,
the numerically lower (more urgent) rawPriority receives a base_priority
factor greater than or equal to the other's. -/
theorem C8_priority_monotone (id title : String) (p1 p2 : Int) (c : Option ℚ)
    (comp : String) (ls : List String) (b : Int) (now : ℚ) (h : p1 ≤ p2) :
    (score_task id title p2 c comp ls b now).factors.base_priority
      ≤ (score_task id title p1 c comp ls b now).factors.base_priority := by
  rw [score_task_base_priority, score_task_base_priority]
  omega

theorem C8_priority_monotone_witness :
    (score_task "t" "x" 3 none "medium" [] 0 0).factors.base_priority
      ≤ (score_task "t" "x" 1 none "medium" [] 0 0).factors.base_priority :=
  C8_priority_monotone "t" "x" 1 3 none "medium" [] 0 0 (by norm_num)

/-! ## C9 -/

/-- C9: confirmed.  For two descriptors identical except for the label
list, where exactly one list contains a label whose lowercase form is
urgent/critical/blocker/hotfix, the labels factors are 100 and 0 (so they
differ by exactly 100) independently of every other field; matching is
case-insensitive (via lowercasing), and an empty label list always yields
labels factor 0. -/
theorem C9_label_override (id title : String) (p : Int) (c : Option ℚ)
    (comp : String) (b : Int) (now : ℚ) (l1 l2 : List String)
    (h1 : l1.any (fun s => URGENT_LABELS.contains (lowerStr s)) = true)
    (h2 : l2.any (fun s => URGENT_LABELS.contains (lowerStr s)) = false) :
    (score_task id title p c comp l1 b now).factors.labels = 100
    ∧ (score_task id title p c comp l2 b now).factors.labels = 0
    ∧ (score_task id title p c comp l1 b now).factors.labels
        - (score_task id title p c comp l2 b now).factors.labels = 100
    ∧ ∀ (id2 title2 : String) (p2 : Int) (c2 : Option ℚ) (comp2 : String)
        (b2 : Int) (now2 : ℚ),
        (score_task id2 title2 p2 c2 comp2 [] b2 now2).factors.labels = 0 := by
  have e1 : l1.isEmpty = false := by
    cases l1 with
    | nil => simp at h1
    | cons a t => rfl
  have g1 : (score_task id title p c comp l1 b now).factors.labels = 100 := by
    rw [score_task_labels, e1, h1]
    rfl
  have g2 : (score_task id title p c comp l2 b now).factors.labels = 0 := by
    rw [score_task_labels]
    cases e2 : l2.isEmpty with
    | true => rfl
    | false => rw [h2]; rfl
  refine ⟨g1, g2, by rw [g1, g2]; norm_num, ?_⟩
  intro id2 title2 p2 c2 comp2 b2 now2
  rw [score_task_labels]
  rfl

theorem C9_label_override_witness :
    (score_task "t" "x" 2 none "medium" ["Critical"] 0 0).factors.labels = 100
    ∧ (score_task "t" "x" 2 none "medium" ["bug", "feature"] 0 0).factors.labels = 0
    ∧ (score_task "t" "x" 2 none "medium" ["Critical"] 0 0).factors.labels
        - (score_task "t" "x" 2 none "medium" ["bug", "feature"] 0 0).factors.labels = 100
    ∧ (score_task "t" "x" 2 none "medium" [] 0 0).factors.labels = 0 := by
  have h := C9_label_override "t" "x" 2 none "medium" 0 0 ["Critical"]
    ["bug", "feature"] (by decide) (by decide)
  exact ⟨h.1, h.2.1, h.2.2.1, h.2.2.2 "t" "x" 2 none "medium" 0 0⟩

/-! ## Sorting lemmas -/

theorem orderedInsertDesc_perm (a : ScoredTask) (l : List ScoredTask) :
    (orderedInsertDesc a l).Perm (a :: l) := by
  induction l with
  | nil => exact List.Perm.refl _
  | cons b t ih =>
    unfold orderedInsertDesc
    by_cases h : b.score ≤ a.score
    · rw [if_pos h]
    · rw [if_neg h]
      exact (ih.cons b).trans (List.Perm.swap a b t)

theorem sortByScoreDesc_perm (l : List ScoredTask) :
    (sortByScoreDesc l).Perm l := by
  induction l with
  | nil => exact List.Perm.refl _
  | cons a t ih => exact (orderedInsertDesc_perm a (sortByScoreDesc t)).trans (ih.cons a)

theorem pairwise_orderedInsertDesc (a : ScoredTask) (l : List ScoredTask)
    (h : l.Pairwise scoreGe) : (orderedInsertDesc a l).Pairwise scoreGe := by
  induction l with
  | nil => simp [orderedInsertDesc]
  | cons b t ih =>
    rcases List.pairwise_cons.mp h with ⟨hb, ht⟩
    unfold orderedInsertDesc
    by_cases hc : b.score ≤ a.score
    · rw [if_pos hc]
      refine List.pairwise_cons.mpr ⟨?_, h⟩
      intro x hx
      rcases List.mem_cons.mp hx with rfl | hxt
      · exact hc
      · exact le_trans (hb x hxt) hc
    · rw [if_neg hc]
      refine List.pairwise_cons.mpr ⟨?_, ih ht⟩
      intro x hx
      rcases List.mem_cons.mp ((orderedInsertDesc_perm a t).mem_iff.mp hx) with rfl | h2
      · exact le_of_lt (not_le.mp hc)
      · exact hb x h2

theorem pairwise_sortByScoreDesc (l : List ScoredTask) :
    (sortByScoreDesc l).Pairwise scoreGe := by
  induction l with
  | nil => simp [sortByScoreDesc]
  | cons a t ih => exact pairwise_orderedInsertDesc a (sortByScoreDesc t) ih

theorem filter_orderedInsertDesc_pos (a : ScoredTask) (l : List ScoredTask)
    (v : ℚ) (ha : a.score = v) :
    (orderedInsertDesc a l).filter (fun t => decide (t.score = v))
      = a :: l.filter (fun t => decide (t.score = v)) := by
  have hpa : (decide (a.score = v)) = true := decide_eq_true ha
  induction l with
  | nil =>
    show List.filter _ [a] = [a]
    rw [List.filter_cons_of_pos (p := fun x : ScoredTask => decide (x.score = v)) hpa, List.filter_nil]
  | cons b t ih =>
    unfold orderedInsertDesc
    by_cases hc : b.score ≤ a.score
    · rw [if_pos hc]
      rw [List.filter_cons_of_pos (p := fun x : ScoredTask => decide (x.score = v)) hpa]
    · rw [if_neg hc]
      have hbv : (decide (b.score = v)) = false := by
        apply decide_eq_false
        intro hb
        exact hc (by rw [hb, ← ha])
      rw [List.filter_cons_of_neg (p := fun x : ScoredTask => decide (x.score = v)) (by simp [hbv]), ih,
        List.filter_cons_of_neg (p := fun x : ScoredTask => decide (x.score = v)) (by simp [hbv])]

theorem filter_orderedInsertDesc_neg (a : ScoredTask) (l : List ScoredTask)
    (v : ℚ) (ha : ¬ a.score = v) :
    (orderedInsertDesc a l).filter (fun t => decide (t.score = v))
      = l.filter (fun t => decide (t.score = v)) := by
  have hpa : (decide (a.score = v)) = false := decide_eq_false ha
  induction l with
  | nil =>
    show List.filter _ [a] = []
    rw [List.filter_cons_of_neg (p := fun x : ScoredTask => decide (x.score = v)) (by simp [hpa]), List.filter_nil]
  | cons b t ih =>
    unfold orderedInsertDesc
    by_cases hc : b.score ≤ a.score
    · rw [if_pos hc]
      rw [List.filter_cons_of_neg (p := fun x : ScoredTask => decide (x.score = v)) (by simp [hpa])]
    · rw [if_neg hc]
      cases hbv : (decide (b.score = v)) with
      | true => rw [List.filter_cons_of_pos (p := fun x : ScoredTask => decide (x.score = v)) hbv, ih, List.filter_cons_of_pos (p := fun x : ScoredTask => decide (x.score = v)) hbv]
      | false =>
        rw [List.filter_cons_of_neg (p := fun x : ScoredTask => decide (x.score = v)) (by simp [hbv]), ih,
          List.filter_cons_of_neg (p := fun x : ScoredTask => decide (x.score = v)) (by simp [hbv])]

theorem filter_sortByScoreDesc (l : List ScoredTask) (v : ℚ) :
    (sortByScoreDesc l).filter (fun t => decide (t.score = v))
      = l.filter (fun t => decide (t.score = v)) := by
  induction l with
  | nil => rfl
  | cons a t ih =>
    by_cases ha : a.score = v
    · show (orderedInsertDesc a (sortByScoreDesc t)).filter _ = _
      rw [filter_orderedInsertDesc_pos a _ v ha, ih,
        List.filter_cons_of_pos (p := fun x : ScoredTask => decide (x.score = v)) (decide_eq_true ha)]
    · show (orderedInsertDesc a (sortByScoreDesc t)).filter _ = _
      rw [filter_orderedInsertDesc_neg a _ v ha, ih,
        List.filter_cons_of_neg (p := fun x : ScoredTask => decide (x.score = v)) (by simp [decide_eq_false ha])]

/-! ## C5 -/

/-- C5: confirmed.  `rank_tasks` (and the final sort of `score_tasks`,
which applies the same descending sort) returns a permutation of its input
sorted by score descending, and is stable: for every score value the
subsequence of tasks having that score is exactly the input's subsequence,
so equal-scored tasks keep their original relative order.  In particular
inputs `[A, B, C]` with scores `[50, 50, 70]` rank as `[C, A, B]`. -/
theorem C5_rank_stable_desc :
    (∀ l : List ScoredTask,
      (rank_tasks l).Pairwise scoreGe
      ∧ (rank_tasks l).Perm l
      ∧ ∀ v : ℚ, (rank_tasks l).filter (fun t => decide (t.score = v))
          = l.filter (fun t => decide (t.score = v)))
    ∧ (∀ (ts : List TaskData) (now : ℚ) (l : List ScoredTask),
        scoreAll ts now = Except.ok l
        → score_tasks ts now = Except.ok (rank_tasks l))
    ∧ (∀ A B C : ScoredTask, A.score = 50 → B.score = 50 → C.score = 70 →
        rank_tasks [A, B, C] = [C, A, B]) := by
  refine ⟨?_, ?_, ?_⟩
  · intro l
    exact ⟨pairwise_sortByScoreDesc l, sortByScoreDesc_perm l,
      fun v => filter_sortByScoreDesc l v⟩
  · intro ts now l h
    have h2 : scoreAllWith fromisoformat ts now = Except.ok l := h
    unfold score_tasks score_tasksWith
    rw [h2]
    rfl
  · intro A B C hA hB hC
    have h4 : orderedInsertDesc A [B] = [A, B] := by
      show (if B.score ≤ A.score then A :: B :: [] else B :: orderedInsertDesc A []) = [A, B]
      rw [if_pos (by rw [hA, hB])]
    have h2 : orderedInsertDesc B [C] = [C, B] := by
      show (if C.score ≤ B.score then B :: C :: [] else C :: orderedInsertDesc B []) = [C, B]
      rw [if_neg (by rw [hB, hC]; norm_num)]
      rfl
    have h3 : orderedInsertDesc A [C, B] = [C, A, B] := by
      show (if C.score ≤ A.score then A :: C :: [B] else C :: orderedInsertDesc A [B]) = [C, A, B]
      rw [if_neg (by rw [hA, hC]; norm_num), h4]
    calc rank_tasks [A, B, C]
        = orderedInsertDesc A (orderedInsertDesc B [C]) := rfl
      _ = orderedInsertDesc A [C, B] := by rw [h2]
      _ = [C, A, B] := h3

theorem C5_rank_stable_desc_witness :
    rank_tasks
        [{ task_id := "A", title := "", raw_priority := 1, score := 50,
           factors := ⟨0, 0, 0, 0, 0⟩ },
         { task_id := "B", title := "", raw_priority := 2, score := 50,
           factors := ⟨0, 0, 0, 0, 0⟩ },
         { task_id := "C", title := "", raw_priority := 3, score := 70,
           factors := ⟨0, 0, 0, 0, 0⟩ }]
      = [{ task_id := "C", title := "", raw_priority := 3, score := 70,
           factors := ⟨0, 0, 0, 0, 0⟩ },
         { task_id := "A", title := "", raw_priority := 1, score := 50,
           factors := ⟨0, 0, 0, 0, 0⟩ },
         { task_id := "B", title := "", raw_priority := 2, score := 50,
           factors := ⟨0, 0, 0, 0, 0⟩ }]
    ∧ score_tasks [] 0 = Except.ok (rank_tasks []) :=
  ⟨C5_rank_stable_desc.2.2
      { task_id := "A", title := "", raw_priority := 1, score := 50,
        factors := ⟨0, 0, 0, 0, 0⟩ }
      { task_id := "B", title := "", raw_priority := 2, score := 50,
        factors := ⟨0, 0, 0, 0, 0⟩ }
      { task_id := "C", title := "", raw_priority := 3, score := 70,
        factors := ⟨0, 0, 0, 0, 0⟩ } rfl rfl rfl,
   C5_rank_stable_desc.2.1 [] 0 [] rfl⟩

/-! ## C2 -/

theorem scoreOneWith_error_of_bad (parse : String → Option ℚ) (t : TaskData)
    (now : ℚ) (s : String) (hs : t.created_at = some s) (hne : s ≠ "")
    (hp : parse s = none) :
    scoreOneWith parse t now
      = Except.error ("Invalid isoformat string: " ++ s) := by
  have he : s.isEmpty = false := by
    cases hE : s.isEmpty
    · rfl
    · exact absurd ((String.isEmpty_iff s).mp hE) hne
  simp [scoreOneWith, hs, he, hp]

theorem scoreAllWith_error_of_mem (parse : String → Option ℚ)
    (tasks : List TaskData) (now : ℚ) (t : TaskData) (ht : t ∈ tasks)
    (e : String) (he : scoreOneWith parse t now = Except.error e) :
    ∃ msg, scoreAllWith parse tasks now = Except.error msg := by
  induction tasks with
  | nil => cases ht
  | cons x rest ih =>
    rcases List.mem_cons.mp ht with rfl | hmem
    · exact ⟨e, by unfold scoreAllWith; rw [he]⟩
    · cases hx : scoreOneWith parse x now with
      | error e2 => exact ⟨e2, by unfold scoreAllWith; rw [hx]⟩
      | ok r =>
        rcases ih hmem with ⟨msg, hmsg⟩
        exact ⟨msg, by unfold scoreAllWith; rw [hx, hmsg]⟩

/-- C2: refuted as stated.  A `created_at` value that is present but equal
to the empty string is not a parseable ISO-8601 timestamp (CPython's
`datetime.fromisoformat` raises `ValueError` on it, and the model agrees,
fourth conjunct), yet `score_tasks` does not fail on it: the truthiness
guard `if task.get('created_at'):` treats the empty string like an absent
key, so the descriptor is scored normally with age factor 0.  The first
conjunct shows the parser is never even consulted: the same output arises
with a parser that rejects every string. -/
theorem C2_counterexample :
    score_tasksWith (fun _ => none) [{ created_at := some "" }] 0
      = Except.ok [score_task "" "" 4 none "medium" [] 0 0]
    ∧ score_tasks [{ created_at := some "" }] 0
      = Except.ok [score_task "" "" 4 none "medium" [] 0 0]
    ∧ (score_task "" "" 4 none "medium" [] 0 0).factors.age = 0
    ∧ fromisoformat "" = none :=
  ⟨rfl, rfl, rfl, rfl⟩

/-- C2 (amended): when a descriptor's `created_at` field is present,
non-empty and not parseable, `score_tasks` reports an error to the caller
(the `ValueError` from `datetime.fromisoformat` propagates) rather than
returning normally; only the empty string is silently treated as absent
and scored with age factor 0.  The timestamp parser is standard-library
code external to this repository, so the theorem abstracts it: it holds
for every parser `parse`, in particular for the real
`datetime.fromisoformat` of whichever Python version runs the code, with
"not parseable" meaning that parser fails on the string. -/
theorem C2_nonempty_malformed_errors (parse : String → Option ℚ)
    (tasks : List TaskData) (now : ℚ) (t : TaskData) (s : String)
    (ht : t ∈ tasks) (hs : t.created_at = some s) (hne : s ≠ "")
    (hp : parse s = none) :
    ∃ msg, score_tasksWith parse tasks now = Except.error msg := by
  rcases scoreAllWith_error_of_mem parse tasks now t ht _
      (scoreOneWith_error_of_bad parse t now s hs hne hp) with ⟨msg, h⟩
  exact ⟨msg, by unfold score_tasksWith; rw [h]; rfl⟩

theorem C2_nonempty_malformed_errors_witness :
    ∃ msg, score_tasks [{ created_at := some "zzz" }] 0 = Except.error msg :=
  C2_nonempty_malformed_errors fromisoformat [{ created_at := some "zzz" }] 0
    { created_at := some "zzz" } "zzz" (List.mem_singleton.mpr rfl) rfl
    (by decide) rfl

/-! ## C10 -/

end Pilot
